import Mathlib

/-!
Verification of the session-negotiation hook of `webrtc-test-react`
(`src/useWebRTC.ts`, with its REST client `src/api.ts`).

The hook is embedded shallowly: each async operation (`join`,
`publishTracks`, `subscribeTo`, `leave`) becomes a pure Lean function from
the hook's mutable state (`pcRef`, `iceServersRef`, `localStreamRef`, the
React `state`, the `logs` ring buffer) and an environment of backend
responses to a result, a new state, and a trace of externally visible
effects (media requests, peer-connection creation/closure, API calls,
track stops).  JavaScript `throw`/`try`/`catch` becomes `Except`; the
`catch` blocks that log and rethrow are reproduced branch by branch.

The browser's `RTCPeerConnection` is an external collaborator, modelled
after the contract the code relies on: media-line identifiers (`mid`) are
unassigned (`none`) when a transceiver is created and are assigned when an
offer is committed via `setLocalDescription`.
-/

namespace WebRTC

/-- JavaScript `x || d` on an optional string: `null`/`undefined` and the
empty string are falsy. -/
def jsOr (o : Option String) (d : String) : String :=
  match o with
  | some s => if s = "" then d else s
  | none => d

/-- Rendering of a nullable string in a template literal: `null` prints as
`"null"`. -/
def jsNull (o : Option String) : String := o.getD "null"

/-- Rendering of a possibly-undefined string in a template literal:
`undefined` prints as `"undefined"`. -/
def jsUndef (o : Option String) : String := o.getD "undefined"

/-- JavaScript truthiness of an optional string (`if (t.errorCode)`). -/
def jsTruthy (o : Option String) : Bool :=
  match o with
  | some s => s ≠ ""
  | none => false

/-- `setLogs((prev) => [...prev.slice(-99), entry])`: keep the last 99
entries and append, so the log ring never exceeds 100 entries. -/
def pushLog (logs : List String) (msg : String) : List String :=
  logs.drop (logs.length - 99) ++ [msg]

/-- One local capture track (`MediaStreamTrack`): its `kind` ("audio" or
"video") and its `id`. -/
structure MediaTrack where
  kind : String
  id : String
deriving Repr, DecidableEq

/-- A `MediaStream`: the list of its tracks. -/
structure Stream where
  tracks : List MediaTrack
deriving Repr, DecidableEq

/-- An SDP session description (`{type, sdp}`). -/
structure SessionDesc where
  descType : String
  sdp : String
deriving Repr, DecidableEq

/-- One transceiver of the connection primitive.  `mid` is `none` until a
local description is committed; `senderTrackKind` is the kind of
`t.sender.track` (`none` for receive-only slots). -/
structure Transceiver where
  mid : Option String
  senderTrackKind : Option String
  kind : String
  direction : String
deriving Repr, DecidableEq

/-- The connection primitive (`RTCPeerConnection`) as the hook uses it. -/
structure PC where
  closed : Bool
  transceivers : List Transceiver
  localDesc : Option SessionDesc
  remoteDesc : Option SessionDesc
deriving Repr, DecidableEq

def PC.new : PC := ⟨false, [], none, none⟩

/-- `pc.addTrack(track, stream)`: appends a sendrecv transceiver whose mid
is not yet assigned. -/
def PC.addTrack (pc : PC) (kind : String) : PC :=
  { pc with transceivers := pc.transceivers ++ [⟨none, some kind, kind, "sendrecv"⟩] }

/-- `pc.addTransceiver(kind, {direction})`: appends a transceiver with no
sender track and no mid yet. -/
def PC.addTransceiver (pc : PC) (kind direction : String) : PC :=
  { pc with transceivers := pc.transceivers ++ [⟨none, none, kind, direction⟩] }

/-- `pc.createOffer()`.  The claims never inspect SDP text, so the offer
body is opaque. -/
def PC.createOffer (_pc : PC) : SessionDesc := ⟨"offer", "offer-sdp"⟩

/-- Model of the primitive assigning media-line identifiers when a local
description is committed: a transceiver that already has a mid keeps it,
an unassigned one receives its m-line index. -/
def assignMidsFrom (i : Nat) : List Transceiver → List Transceiver
  | [] => []
  | t :: ts =>
    (match t.mid with
     | some _ => t
     | none => { t with mid := some (toString i) }) :: assignMidsFrom (i + 1) ts

def assignMids (ts : List Transceiver) : List Transceiver := assignMidsFrom 0 ts

/-- `pc.setLocalDescription(desc)`: commits the description and assigns
mids (they are only well-defined after this step). -/
def PC.setLocalDescription (pc : PC) (d : SessionDesc) : PC :=
  { pc with localDesc := some d, transceivers := assignMids pc.transceivers }

/-- `pc.setRemoteDescription(desc)`. -/
def PC.setRemoteDescription (pc : PC) (d : SessionDesc) : PC :=
  { pc with remoteDesc := some d }

/-- The track-binding record sent to `api.publish`:
`{trackName, mid, kind}`. -/
structure TrackInfo where
  trackName : String
  mid : String
  kind : String
deriving Repr, DecidableEq

/-- The record sent to `api.subscribe`: `{trackName, sessionId}`. -/
structure SubTrack where
  trackName : String
  sessionId : String
deriving Repr, DecidableEq

/-- Per-track result in a publish/subscribe response. -/
structure TrackResult where
  trackName : String
  errorCode : Option String
  errorDescription : Option String
deriving Repr, DecidableEq

/-- Response of `POST /webrtc/rooms/:room_id/join`.  `ice_servers` is
`none` when the field is absent or not an array. -/
structure JoinResponse where
  session_id : String
  room : Option String
  ice_servers : Option (List String)
deriving Repr, DecidableEq

/-- Response of `POST /webrtc/rooms/:room_id/publish`. -/
structure PublishResponse where
  answer_sdp : Option String
  answer_type : Option String
  tracks : Option (List TrackResult)
  requires_immediate_renegotiation : Bool
deriving Repr, DecidableEq

/-- Response of `POST /webrtc/rooms/:room_id/subscribe`. -/
structure SubscribeResponse where
  answer_sdp : Option String
  answer_type : Option String
  tracks : Option (List TrackResult)
  requires_immediate_renegotiation : Bool
deriving Repr, DecidableEq

/-- Response of `POST /webrtc/rooms/:room_id/renegotiate`. -/
structure RenegotiateResponse where
  sdp : Option String
  type_ : Option String
deriving Repr, DecidableEq

/-- Errors a hook operation can raise to its caller.  `api` and `gum` are
exceptions thrown by the REST client and `getUserMedia`;
`noPeerConnection` is `Error("No PeerConnection — publish first")`.
`negotiationBusy` and `noAnswer` are the spec's error taxonomy for a
round-serialization guard and a missing answer SDP; they are present so
that theorems can state whether the code ever raises them. -/
inductive JsError where
  | api (message : String)
  | gum (message : String)
  | noPeerConnection
  | negotiationBusy
  | noAnswer
deriving Repr, DecidableEq

def JsError.message : JsError → String
  | .api m => m
  | .gum m => m
  | .noPeerConnection => "No PeerConnection — publish first"
  | .negotiationBusy => "NegotiationBusy"
  | .noAnswer => "NoAnswer"

/-- Externally visible effects of one operation, in program order. -/
inductive Effect where
  | gumRequest (audio video : Bool)
  | createPC (iceServers : List String)
  | closePC
  | stopTrack (id : String)
  | apiJoin (roomId : String)
  | apiPublish (roomId : String) (sdp : String) (tracks : List TrackInfo)
  | apiSubscribe (roomId : String) (sdp : String) (tracks : List SubTrack)
  | apiRenegotiate (roomId : String) (sdp : String)
  | apiLeave (roomId : String)
deriving Repr, DecidableEq

/-- The React `RoomState`. -/
structure RoomState where
  sessionId : Option String
  room : Option String
  iceServers : List String
  localStream : Option Stream
  remoteStreams : List (String × Stream)
deriving Repr, DecidableEq

def RoomState.empty : RoomState := ⟨none, none, [], none, []⟩

/-- The hook's whole mutable state: the refs (`pcRef`, `iceServersRef`,
`localStreamRef`), the React state and the log ring. -/
structure HookState where
  pc : Option PC
  iceServersRef : List String
  localStreamRef : Option Stream
  state : RoomState
  logs : List String
deriving Repr, DecidableEq

instance {ε α : Type} [DecidableEq ε] [DecidableEq α] : DecidableEq (Except ε α) :=
  fun a b =>
    match a, b with
    | .error x, .error y => decidable_of_iff (x = y) (by simp)
    | .error _, .ok _ => isFalse (by simp)
    | .ok _, .error _ => isFalse (by simp)
    | .ok x, .ok y => decidable_of_iff (x = y) (by simp)

/-- Backend/browser environment: the outcome of each external call an
operation can make.  `Except.error m` is a thrown exception with message
`m`. -/
structure Env where
  gum : Except String Stream
  joinResp : Except String JoinResponse
  publishResp : Except String PublishResponse
  subscribeResp : Except String SubscribeResponse
  renegResp : Except String RenegotiateResponse
  leaveResp : Except String Unit
deriving Repr, DecidableEq

/-- Result of running one operation: what the promise settles to, the
final hook state, and the effect trace. -/
structure Outcome (α : Type) where
  result : Except JsError α
  state : HookState
  trace : List Effect
deriving Repr, DecidableEq

/-- Default ICE entry substituted when the backend returns none
(`stun:stun.cloudflare.com:3478`). -/
def defaultIce : String := "stun:stun.cloudflare.com:3478"

/-- `Array.isArray(res.ice_servers) && res.ice_servers.length > 0
  ? res.ice_servers : [default]`. -/
def resolveIceServers (o : Option (List String)) : List String :=
  match o with
  | some l => if l.length > 0 then l else [defaultIce]
  | none => [defaultIce]

/-- `createPC` (useWebRTC.ts lines 33–74): closes any previous connection,
constructs a fresh one, installs the observation handlers (not modelled —
no claim depends on them) and stores it in `pcRef`. -/
def createPC (st : HookState) (iceServers : List String) : HookState × PC × List Effect :=
  match st.pc with
  | some _ =>
    let logs := pushLog st.logs "Closing previous PeerConnection..."
    ({ st with pc := some PC.new, logs := logs }, PC.new,
     [Effect.closePC, Effect.createPC iceServers])
  | none =>
    ({ st with pc := some PC.new }, PC.new, [Effect.createPC iceServers])

/-- `join` (lines 77–105). -/
def join (roomId : String) (st : HookState) (env : Env) :
    Outcome (String × List String) :=
  let logs := pushLog st.logs "Joining room..."
  match env.joinResp with
  | .error e =>
    ⟨.error (.api e), { st with logs := pushLog logs s!"Join failed: {e}" },
     [.apiJoin roomId]⟩
  | .ok res =>
    let logs := pushLog logs s!"Joined! session_id={res.session_id}"
    let iceServers := resolveIceServers res.ice_servers
    let logs := pushLog logs s!"ICE servers: {iceServers.length} entries"
    ⟨.ok (res.session_id, iceServers),
     { st with
        iceServersRef := iceServers,
        state := { st.state with
                    sessionId := some res.session_id,
                    room := res.room,
                    iceServers := iceServers },
        logs := logs },
     [.apiJoin roomId]⟩

/-- `stream.getTracks().forEach((track) => pc.addTrack(track, stream))`. -/
def addLocalTracks (pc : PC) (stream : Stream) : PC :=
  stream.tracks.foldl (fun acc t => acc.addTrack t.kind) pc

/-- One entry of the `trackInfos` array (lines 135–139):
`trackName` interpolates the raw mid (so an unassigned mid would print
`null`), `mid` is `t.mid || ""`, `kind` is `t.sender.track?.kind ||
"unknown"`. -/
def mkTrackInfo (t : Transceiver) : TrackInfo :=
  { trackName := jsOr t.senderTrackKind "unknown" ++ "-" ++ jsNull t.mid,
    mid := jsOr t.mid "",
    kind := jsOr t.senderTrackKind "unknown" }

/-- What `publishTracks` holds across the `await api.publish(...)`
suspension: the captured stream, the local `pc` variable and the
track infos already sent. -/
structure PubCtx where
  stream : Stream
  pc : PC
  trackInfos : List TrackInfo
deriving Repr, DecidableEq

/-- First half of `publishTracks` (lines 108–149): everything up to and
including dispatching `api.publish`.  At the cut the offer is committed as
the local description and the round's promise is unsettled. -/
def publishPhase1 (roomId : String) (st : HookState) (env : Env) :
    Outcome PubCtx :=
  let logs := pushLog st.logs "Getting user media..."
  match env.gum with
  | .error e =>
    ⟨.error (.gum e), { st with logs := pushLog logs s!"Publish failed: {e}" },
     [.gumRequest true true]⟩
  | .ok stream =>
    let iceServers :=
      if st.iceServersRef.length > 0 then st.iceServersRef else [defaultIce]
    let (st1, pc0, effs) := createPC { st with logs := logs } iceServers
    let pc1 := addLocalTracks pc0 stream
    let logs1 := stream.tracks.foldl
      (fun ls t =>
        let idPart := t.id.take 8
        pushLog ls s!"Added local track: {t.kind} (id={idPart})")
      st1.logs
    let offer := pc1.createOffer
    let pc2 := pc1.setLocalDescription offer
    let logs2 := pushLog logs1 "Created SDP offer, set as local description"
    let trackInfos := pc2.transceivers.map mkTrackInfo
    let midsMsg :=
      String.intercalate ", " (trackInfos.map fun t => t.trackName ++ "=" ++ t.mid)
    let logs3 := pushLog logs2 ("Track mids: " ++ midsMsg)
    let sdp := (pc2.localDesc.map SessionDesc.sdp).getD ""
    ⟨.ok ⟨stream, pc2, trackInfos⟩,
     { st1 with pc := some pc2, logs := logs3 },
     [.gumRequest true true] ++ effs ++ [.apiPublish roomId sdp trackInfos]⟩

/-- Second half of `publishTracks` (lines 150–188): consume the publish
response, apply the answer if present (only a warning is logged if it is
absent), run the immediate renegotiation sub-step if required, store the
local stream. -/
def publishPhase2 (roomId : String) (stream : Stream) (pc : PC)
    (st : HookState) (env : Env) : Outcome PublishResponse :=
  match env.publishResp with
  | .error e =>
    ⟨.error (.api e), { st with logs := pushLog st.logs s!"Publish failed: {e}" }, []⟩
  | .ok res =>
    let tracksLen := (res.tracks.map List.length).getD 0
    let hasAnswer := res.answer_sdp.isSome
    let renego := res.requires_immediate_renegotiation
    let logs := pushLog st.logs
      s!"Publish response: answer_sdp={hasAnswer}, {tracksLen} tracks, renego={renego}"
    let (pc1, logs1) :=
      match res.answer_sdp with
      | some sdp =>
        (pc.setRemoteDescription ⟨jsOr res.answer_type "answer", sdp⟩,
         pushLog logs "Set remote description (answer)")
      | none => (pc, pushLog logs "WARNING: No answer SDP from publish!")
    if res.requires_immediate_renegotiation then
      let logs2 := pushLog logs1 "Server requires immediate renegotiation..."
      let reOffer := pc1.createOffer
      let pc2 := pc1.setLocalDescription reOffer
      let sdp2 := (pc2.localDesc.map SessionDesc.sdp).getD ""
      match env.renegResp with
      | .error e =>
        ⟨.error (.api e),
         { st with pc := some pc2, logs := pushLog logs2 s!"Publish failed: {e}" },
         [.apiRenegotiate roomId sdp2]⟩
      | .ok reRes =>
        let (pc3, logs3) :=
          match reRes.sdp with
          | some s =>
            (pc2.setRemoteDescription ⟨jsOr reRes.type_ "answer", s⟩,
             pushLog logs2 "Renegotiation complete")
          | none => (pc2, logs2)
        ⟨.ok res,
         { st with pc := some pc3,
                   localStreamRef := some stream,
                   state := { st.state with localStream := some stream },
                   logs := logs3 },
         [.apiRenegotiate roomId sdp2]⟩
    else
      ⟨.ok res,
       { st with pc := some pc1,
                 localStreamRef := some stream,
                 state := { st.state with localStream := some stream },
                 logs := logs1 },
       []⟩

/-- `publishTracks` (lines 108–189) is the two phases run back to back:
the cut is exactly the `await api.publish(...)` suspension point. -/
def publishTracks (roomId : String) (st : HookState) (env : Env) :
    Outcome PublishResponse :=
  match publishPhase1 roomId st env with
  | ⟨.error e, st1, tr⟩ => ⟨.error e, st1, tr⟩
  | ⟨.ok ctx, st1, tr⟩ =>
    let o := publishPhase2 roomId ctx.stream ctx.pc st1 env
    ⟨o.result, o.state, tr ++ o.trace⟩

/-- Structural prefix test on character lists; kernel-evaluable embedding
of JavaScript's `String.prototype.startsWith`. -/
def charsPrefix : List Char → List Char → Bool
  | [], _ => true
  | _ :: _, [] => false
  | p :: ps, c :: cs => p == c && charsPrefix ps cs

/-- `name.startsWith(pre)`. -/
def strStartsWith (name pre : String) : Bool :=
  charsPrefix pre.data name.data

/-- `const kind = name.startsWith("video") ? "video" : "audio"`
(line 202). -/
def subscribeKind (name : String) : String :=
  if strStartsWith name "video" then "video" else "audio"

/-- The loop adding one recvonly transceiver per requested track name
(lines 201–205). -/
def addRecvSlots (pc : PC) (names : List String) : PC :=
  names.foldl (fun acc n => acc.addTransceiver (subscribeKind n) "recvonly") pc

/-- Log text for the subscribe-response summary (line 223–226); the exact
JSON rendering is immaterial to every claim. -/
def subscribeSummary (res : SubscribeResponse) : String :=
  let names := (res.tracks.getD []).map fun t =>
    t.trackName ++ ":" ++ jsUndef t.errorCode
  s!"Subscribe response: answer_sdp={res.answer_sdp.isSome}, tracks=" ++
    String.intercalate "," names

/-- The per-track error log entry (lines 237–242). -/
def trackErrorMsg (t : TrackResult) : String :=
  let code := jsUndef t.errorCode
  let desc := jsUndef t.errorDescription
  s!"Track error: {t.trackName} — {code}: {desc}"

/-- `subscribeTo` (lines 192–267). -/
def subscribeTo (roomId remoteSessionId : String) (trackNames : List String)
    (st : HookState) (env : Env) : Outcome SubscribeResponse :=
  let logs := pushLog st.logs s!"Subscribing to session {remoteSessionId}..."
  match st.pc with
  | none =>
    ⟨.error .noPeerConnection,
     { st with logs := pushLog logs "Subscribe failed: No PeerConnection — publish first" },
     []⟩
  | some pc =>
    let pc1 := addRecvSlots pc trackNames
    let logs1 := trackNames.foldl
      (fun ls n =>
        let kind := subscribeKind n
        pushLog ls s!"Added recvonly transceiver for {n} ({kind})")
      logs
    let offer := pc1.createOffer
    let pc2 := pc1.setLocalDescription offer
    let logs2 := pushLog logs1 "Created subscribe SDP offer"
    let tracks := trackNames.map fun n => SubTrack.mk n remoteSessionId
    let sdp := (pc2.localDesc.map SessionDesc.sdp).getD ""
    match env.subscribeResp with
    | .error e =>
      ⟨.error (.api e),
       { st with pc := some pc2, logs := pushLog logs2 s!"Subscribe failed: {e}" },
       [.apiSubscribe roomId sdp tracks]⟩
    | .ok res =>
      let logs3 := pushLog logs2 (subscribeSummary res)
      let (pc3, logs4) :=
        match res.answer_sdp with
        | some s =>
          (pc2.setRemoteDescription ⟨jsOr res.answer_type "answer", s⟩,
           pushLog logs3 "Set subscribe remote description (answer)")
        | none =>
          let logsW := pushLog logs3 "WARNING: No answer SDP in subscribe response!"
          let logsE := (res.tracks.getD []).foldl
            (fun (ls : List String) (t : TrackResult) =>
              if jsTruthy t.errorCode then pushLog ls (trackErrorMsg t) else ls)
            logsW
          (pc2, logsE)
      if res.requires_immediate_renegotiation then
        let logs5 := pushLog logs4 "Subscribe requires renegotiation..."
        let reOffer := pc3.createOffer
        let pc4 := pc3.setLocalDescription reOffer
        let sdp2 := (pc4.localDesc.map SessionDesc.sdp).getD ""
        match env.renegResp with
        | .error e =>
          ⟨.error (.api e),
           { st with pc := some pc4, logs := pushLog logs5 s!"Subscribe failed: {e}" },
           [.apiSubscribe roomId sdp tracks, .apiRenegotiate roomId sdp2]⟩
        | .ok reRes =>
          let (pc5, logs6) :=
            match reRes.sdp with
            | some s2 =>
              (pc4.setRemoteDescription ⟨jsOr reRes.type_ "answer", s2⟩,
               pushLog logs5 "Subscribe renegotiation complete")
            | none => (pc4, logs5)
          ⟨.ok res, { st with pc := some pc5, logs := logs6 },
           [.apiSubscribe roomId sdp tracks, .apiRenegotiate roomId sdp2]⟩
      else
        ⟨.ok res, { st with pc := some pc3, logs := logs4 },
         [.apiSubscribe roomId sdp tracks]⟩

/-- `leave` (lines 270–296): stop local tracks and clear the refs before
the backend call; the React-state reset runs only after `await
api.leaveRoom` succeeds, and the catch logs without rethrowing. -/
def leave (roomId : String) (st : HookState) (env : Env) : Outcome Unit :=
  let logs := pushLog st.logs "Leaving room..."
  let stopEffs :=
    match st.localStreamRef with
    | some s => s.tracks.map fun t => Effect.stopTrack t.id
    | none => []
  let closeEffs :=
    match st.pc with
    | some _ => [Effect.closePC]
    | none => []
  let st1 := { st with localStreamRef := none, pc := none,
                       iceServersRef := [], logs := logs }
  match env.leaveResp with
  | .error e =>
    ⟨.ok (), { st1 with logs := pushLog st1.logs s!"Leave failed: {e}" },
     stopEffs ++ closeEffs ++ [.apiLeave roomId]⟩
  | .ok _ =>
    ⟨.ok (), { st1 with state := RoomState.empty,
                        logs := pushLog st1.logs "Left room" },
     stopEffs ++ closeEffs ++ [.apiLeave roomId]⟩

/-- A negotiation round is pending when an offer is committed as the local
description but no remote answer has been applied yet. -/
def pendingRound (st : HookState) : Bool :=
  match st.pc with
  | some pc => pc.localDesc.isSome && pc.remoteDesc.isNone
  | none => false

def isClose : Effect → Bool
  | .closePC => true
  | _ => false

/-- Number of `close()` invocations in a trace. -/
def countClose (tr : List Effect) : Nat :=
  (tr.filter isClose).length

def isCreate : Effect → Bool
  | .createPC _ => true
  | _ => false

/-- Number of peer-connection constructions in a trace. -/
def countCreate (tr : List Effect) : Nat :=
  (tr.filter isCreate).length

/-- The `getUserMedia` constraint requests in a trace. -/
def gumRequests (tr : List Effect) : List (Bool × Bool) :=
  tr.filterMap fun e =>
    match e with
    | .gumRequest a v => some (a, v)
    | _ => none

/-- The track-binding lists dispatched to `api.publish` in a trace. -/
def publishedInfos (tr : List Effect) : List (List TrackInfo) :=
  tr.filterMap fun e =>
    match e with
    | .apiPublish _ _ infos => some infos
    | _ => none

/-! ## Concrete fixtures -/

/-- A capture stream with one audio and one video track, as
`getUserMedia({audio: true, video: true})` returns. -/
def sampleStream : Stream := ⟨[⟨"audio", "audio-id-1"⟩, ⟨"video", "video-id-1"⟩]⟩

def okJoin : JoinResponse := ⟨"s1", none, some []⟩

def okPublish : PublishResponse := ⟨some "answer-sdp", some "answer", some [], false⟩

def okSubscribe : SubscribeResponse :=
  ⟨some "sub-answer-sdp", some "answer", some [], false⟩

/-- A backend that answers every call successfully. -/
def baseEnv : Env :=
  { gum := .ok sampleStream,
    joinResp := .ok okJoin,
    publishResp := .ok okPublish,
    subscribeResp := .ok okSubscribe,
    renegResp := .ok ⟨some "re-sdp", some "answer"⟩,
    leaveResp := .ok () }

/-- The hook's state right after mounting. -/
def initState : HookState := ⟨none, [], none, RoomState.empty, []⟩

/-- A state as after a successful `join`: session id stored, default ICE
entry, no connection yet. -/
def joinedState : HookState :=
  { initState with
      iceServersRef := [defaultIce],
      state := { RoomState.empty with
                  sessionId := some "s1", iceServers := [defaultIce] } }

/-- A state as after a successful Publish: live connection, local stream
captured, one remote stream bound. -/
def publishedState : HookState :=
  { joinedState with
      pc := some PC.new,
      localStreamRef := some sampleStream,
      state := { joinedState.state with
                  localStream := some sampleStream,
                  remoteStreams := [("stream-1", sampleStream)] } }

/-- A backend whose leave endpoint fails. -/
def failLeaveEnv : Env := { baseEnv with leaveResp := .error "network down" }

/-- A publish response that carries no answer SDP. -/
def noAnswerPublish : PublishResponse := ⟨none, none, some [], false⟩

/-- A backend whose publish endpoint accepts the offer but returns no
answer SDP. -/
def noAnswerEnv : Env := { baseEnv with publishResp := .ok noAnswerPublish }

/-- A subscribe response with no answer SDP and one per-track error, as in
the spec's example. -/
def noAnswerSubscribe : SubscribeResponse :=
  ⟨none, none, some [⟨"audio-0", some "NOT_FOUND", some "no such track"⟩], false⟩

/-- A backend whose subscribe endpoint returns no answer SDP. -/
def noAnswerSubEnv : Env := { baseEnv with subscribeResp := .ok noAnswerSubscribe }

/-- The messages the no-answer branch of `subscribeTo` logs, one per track
result with a truthy `errorCode`. -/
def trackErrorMsgs (ts : List TrackResult) : List String :=
  ts.filterMap fun t =>
    if jsTruthy t.errorCode then some (trackErrorMsg t) else none

/-- The hook state at the instant `publishTracks` suspends on
`await api.publish(...)`: the offer is committed as the local description
and the round's promise is unsettled. -/
def midPublishState : HookState := (publishPhase1 "room-1" joinedState baseEnv).state

/-! ## Helper lemmas -/

theorem charsPrefix_iff (pre s : List Char) : charsPrefix pre s = true ↔ pre <+: s := by
  induction pre generalizing s with
  | nil => simp [charsPrefix]
  | cons p ps ih =>
    cases s with
    | nil => simp [charsPrefix]
    | cons c cs =>
      rw [charsPrefix, Bool.and_eq_true, beq_iff_eq, ih, List.cons_prefix_cons]

theorem resolveIceServers_ne_nil (o : Option (List String)) :
    resolveIceServers o ≠ [] := by
  rcases o with _ | l
  · simp [resolveIceServers, defaultIce]
  · rcases l with _ | ⟨a, l⟩ <;> simp [resolveIceServers, defaultIce]

theorem addRecvSlots_transceivers (names : List String) (pc : PC) :
    (addRecvSlots pc names).transceivers =
      pc.transceivers ++
        names.map (fun n => Transceiver.mk none none (subscribeKind n) "recvonly") := by
  induction names generalizing pc with
  | nil => simp [addRecvSlots]
  | cons n ns ih =>
    simp [addRecvSlots, PC.addTransceiver] at ih ⊢
    rw [ih]
    simp

theorem gumRequests_append (a b : List Effect) :
    gumRequests (a ++ b) = gumRequests a ++ gumRequests b := by
  simp [gumRequests]

/-- After the publish request is dispatched, the only further effect the
round can produce is the renegotiation sub-step's API call. -/
theorem publishPhase2_trace_renego_only (roomId : String) (stream : Stream)
    (pc : PC) (st : HookState) (env : Env) :
    ∀ e ∈ (publishPhase2 roomId stream pc st env).trace,
      ∃ s2, e = Effect.apiRenegotiate roomId s2 := by
  rcases h : env.publishResp with e0 | ⟨asdp, atype, tks, renego⟩
  · simp [publishPhase2, h]
  · cases renego with
    | false => cases asdp <;> simp [publishPhase2, h]
    | true =>
      rcases hr : env.renegResp with e2 | ⟨rsdp, rtype⟩
      · cases asdp <;> simp [publishPhase2, h, hr]
      · cases asdp <;> cases rsdp <;> simp [publishPhase2, h, hr]

theorem countClose_append (a b : List Effect) :
    countClose (a ++ b) = countClose a + countClose b := by
  simp [countClose]

theorem countClose_cons (e : Effect) (tr : List Effect) :
    countClose (e :: tr) = (if isClose e then 1 else 0) + countClose tr := by
  simp only [countClose, List.filter_cons]
  split <;> simp [Nat.add_comm]

theorem countClose_stopEffs (ts : List MediaTrack) :
    countClose (ts.map fun t => Effect.stopTrack t.id) = 0 := by
  induction ts with
  | nil => rfl
  | cons t ts ih => simpa [countClose_cons, isClose] using ih

theorem addLocalTracks_closed (s : Stream) (pc : PC) :
    (addLocalTracks pc s).closed = pc.closed := by
  suffices h : ∀ (l : List MediaTrack) (pc : PC),
      (l.foldl (fun acc t => acc.addTrack t.kind) pc).closed = pc.closed from
    h s.tracks pc
  intro l
  induction l with
  | nil => intro pc; rfl
  | cons t ts ih => intro pc; simpa [PC.addTrack] using ih _

/-- The last message pushed onto the log ring is always present at its
end. -/
theorem pushLog_suffix (l : List String) (m : String) :
    List.IsSuffix [m] (pushLog l m) :=
  ⟨l.drop (l.length - 99), rfl⟩

/-- Pushing keeps any short suffix of the ring and appends the new entry
after it. -/
theorem pushLog_suffix_mono (l : List String) (m : String) (s : List String)
    (hs : s <:+ l) (hlen : s.length ≤ 99) :
    (s ++ [m]) <:+ pushLog l m := by
  obtain ⟨t, rfl⟩ := hs
  refine ⟨t.drop ((t ++ s).length - 99), ?_⟩
  unfold pushLog
  rw [List.drop_append_of_le_length (by simp; omega), List.append_assoc]

/-- Pushing at most 100 messages in a row leaves all of them, in order, at
the end of the ring. -/
theorem foldl_pushLog_suffix (msgs : List String) (l s : List String)
    (hs : s <:+ l) (hlen : s.length + msgs.length ≤ 100) :
    (s ++ msgs) <:+ List.foldl pushLog l msgs := by
  induction msgs generalizing l s with
  | nil => simpa using hs
  | cons m ms ih =>
    rw [List.foldl_cons]
    have h1 : (s ++ [m]) <:+ pushLog l m :=
      pushLog_suffix_mono l m s hs (by simp at hlen; omega)
    have h2 := ih (pushLog l m) (s ++ [m]) h1 (by simp at hlen ⊢; omega)
    simpa [List.append_assoc] using h2

/-- The conditional error-logging loop of `subscribeTo` pushes exactly the
messages `trackErrorMsgs` lists. -/
theorem foldl_trackError_eq (ts : List TrackResult) (l : List String) :
    ts.foldl
      (fun (ls : List String) (t : TrackResult) =>
        if jsTruthy t.errorCode then pushLog ls (trackErrorMsg t) else ls) l =
    List.foldl pushLog l (trackErrorMsgs ts) := by
  induction ts generalizing l with
  | nil => rfl
  | cons t ts ih =>
    cases hc : jsTruthy t.errorCode <;>
      simp [trackErrorMsgs, hc, ih, List.filterMap_cons]

theorem assignMidsFrom_append (i : Nat) (a b : List Transceiver) :
    assignMidsFrom i (a ++ b) =
      assignMidsFrom i a ++ assignMidsFrom (i + a.length) b := by
  induction a generalizing i with
  | nil => simp [assignMidsFrom]
  | cons t ts ih =>
    simp only [List.cons_append, assignMidsFrom, List.length_cons]
    congr 1
    have h : i + (ts.length + 1) = i + 1 + ts.length := by omega
    rw [h]
    exact ih (i + 1)

/-- Committing a description never rewrites an already-assigned mid. -/
theorem assignMidsFrom_of_all_some (i : Nat) (a : List Transceiver)
    (h : ∀ t ∈ a, t.mid.isSome) : assignMidsFrom i a = a := by
  induction a generalizing i with
  | nil => rfl
  | cons t ts ih =>
    have ht := h t (by simp)
    rcases hm : t.mid with _ | m
    · rw [hm] at ht; simp at ht
    · simp [assignMidsFrom, hm, ih _ (fun x hx => h x (by simp [hx]))]

/-- Every transceiver coming out of a commit has its mid assigned and
keeps its sender track. -/
theorem assignMidsFrom_mem (i : Nat) (ts : List Transceiver) :
    ∀ t2 ∈ assignMidsFrom i ts,
      ∃ t ∈ ts, t2.senderTrackKind = t.senderTrackKind ∧ t2.mid.isSome = true := by
  induction ts generalizing i with
  | nil => simp [assignMidsFrom]
  | cons t ts ih =>
    intro t2 ht2
    rw [assignMidsFrom, List.mem_cons] at ht2
    rcases ht2 with h1 | h1
    · rcases hm : t.mid with _ | m
      · refine ⟨t, by simp, ?_, ?_⟩ <;> simp [h1, hm]
      · refine ⟨t, by simp, ?_, ?_⟩ <;> simp [h1, hm]
    · obtain ⟨t3, ht3, hsk, hsm⟩ := ih (i + 1) t2 h1
      exact ⟨t3, by simp [ht3], hsk, hsm⟩

theorem addLocalTracks_transceivers (s : Stream) (pc : PC) :
    (addLocalTracks pc s).transceivers =
      pc.transceivers ++ s.tracks.map
        (fun tr => Transceiver.mk none (some tr.kind) tr.kind "sendrecv") := by
  unfold addLocalTracks
  suffices h : ∀ (l : List MediaTrack) (pc : PC),
      (l.foldl (fun acc t => acc.addTrack t.kind) pc).transceivers =
        pc.transceivers ++
          l.map (fun tr => Transceiver.mk none (some tr.kind) tr.kind "sendrecv") from
    h s.tracks pc
  intro l
  induction l with
  | nil => intro pc; simp
  | cons t ts ih =>
    intro pc
    rw [List.foldl_cons, ih]
    simp [PC.addTrack]

theorem jsOr_some_empty_default (m : String) : jsOr (some m) "" = m := by
  simp only [jsOr]
  split <;> simp_all

theorem addRecvSlots_closed (names : List String) (pc : PC) :
    (addRecvSlots pc names).closed = pc.closed := by
  induction names generalizing pc with
  | nil => rfl
  | cons n ns ih => simpa [addRecvSlots, PC.addTransceiver] using ih _

theorem leave_result_ok (roomId : String) (st : HookState) (env : Env) :
    (leave roomId st env).result = .ok () := by
  rcases hr : env.leaveResp with e | u <;> simp [leave, hr]

theorem leave_state_pc (roomId : String) (st : HookState) (env : Env) :
    (leave roomId st env).state.pc = none := by
  rcases hr : env.leaveResp with e | u <;> simp [leave, hr]

theorem leave_trace_closeCount (roomId : String) (st : HookState) (env : Env) :
    countClose (leave roomId st env).trace = if st.pc.isSome then 1 else 0 := by
  rcases h : st.pc with _ | pc <;> rcases hl : st.localStreamRef with _ | s <;>
    rcases hr : env.leaveResp with e | u <;>
      simp [leave, h, hl, hr, countClose_append, countClose_cons,
            countClose_stopEffs, isClose, countClose]

/-- C7: a successful Join stores the backend's ICE-server list unchanged
when it is nonempty, and exactly the single built-in default entry when
the backend list is empty or missing; the stored list is never empty. -/
theorem join_ice_servers_never_empty (roomId : String) (st : HookState)
    (env : Env) (res : JoinResponse) (h : env.joinResp = .ok res) :
    ((join roomId st env).state.state.iceServers = resolveIceServers res.ice_servers) ∧
    ((res.ice_servers = none ∨ res.ice_servers = some []) →
      (join roomId st env).state.state.iceServers = [defaultIce]) ∧
    (∀ l, res.ice_servers = some l → l ≠ [] →
      (join roomId st env).state.state.iceServers = l) ∧
    (join roomId st env).state.state.iceServers ≠ [] := by
  have hj : (join roomId st env).state.state.iceServers
      = resolveIceServers res.ice_servers := by
    simp [join, h]
  refine ⟨hj, ?_, ?_, hj ▸ resolveIceServers_ne_nil res.ice_servers⟩
  · rintro (h0 | h0) <;> simp [hj, resolveIceServers, h0]
  · intro l hl hne
    rcases l with _ | ⟨a, l⟩
    · exact absurd rfl hne
    · simp [hj, resolveIceServers, hl]

/-- Witness for C7: joining against a backend that returns an empty
`ice_servers` list stores exactly the one default entry. -/
theorem join_ice_servers_never_empty_witness :
    (join "room-1" initState baseEnv).state.state.iceServers = [defaultIce] :=
  (join_ice_servers_never_empty "room-1" initState baseEnv okJoin rfl).2.1 (Or.inr rfl)

/-- C9: the kind inferred for a requested track name is video exactly when
the name starts with "video" and audio otherwise, and `subscribeTo` adds
one receive-only slot of that inferred kind per requested name. -/
theorem subscribe_inferred_kind (name : String) (pc : PC) (names : List String) :
    (subscribeKind name = "video" ↔ "video".data <+: name.data) ∧
    (subscribeKind name = "audio" ↔ ¬ "video".data <+: name.data) ∧
    ((addRecvSlots pc names).transceivers =
      pc.transceivers ++
        names.map (fun n => Transceiver.mk none none (subscribeKind n) "recvonly")) := by
  refine ⟨?_, ?_, addRecvSlots_transceivers names pc⟩ <;>
    rcases hb : strStartsWith name "video" with _ | _ <;>
      simp only [subscribeKind, hb, if_true, if_false] <;>
        simp [← charsPrefix_iff, strStartsWith] at hb ⊢ <;> simp [hb]

/-- Witness for C9: `inferKind("video-3") = video` and
`inferKind("audio-1") = audio`. -/
theorem subscribe_inferred_kind_witness :
    subscribeKind "video-3" = "video" ∧ subscribeKind "audio-1" = "audio" :=
  ⟨(subscribe_inferred_kind "video-3" PC.new []).1.mpr (by decide),
   (subscribe_inferred_kind "audio-1" PC.new []).2.1.mpr (by decide)⟩

/-- C10: `publishTracks` takes no track-selection input; every call issues
exactly one capture request, unconditionally asking for both an audio and
a video track. -/
theorem publish_requests_audio_and_video (roomId : String) (st : HookState)
    (env : Env) :
    gumRequests (publishTracks roomId st env).trace = [(true, true)] := by
  rcases hg : env.gum with e | stream
  · simp [publishTracks, publishPhase1, hg, gumRequests]
  · rcases hp : st.pc with _ | pc0 <;>
      (simp [publishTracks, publishPhase1, createPC, hg, hp, gumRequests]
       intro a ha
       obtain ⟨s2, rfl⟩ := publishPhase2_trace_renego_only _ _ _ _ _ a ha
       rfl)

/-- C4: `leave` never throws to the caller, and two consecutive calls
invoke the connection primitive's `close` exactly once — the second call
finds `pcRef` already cleared. -/
theorem leave_twice_closes_once (roomId : String) (st : HookState) (env : Env)
    (pc : PC) (h : st.pc = some pc) :
    (leave roomId st env).result = .ok () ∧
    (leave roomId (leave roomId st env).state env).result = .ok () ∧
    countClose ((leave roomId st env).trace ++
        (leave roomId (leave roomId st env).state env).trace) = 1 := by
  refine ⟨leave_result_ok roomId st env, leave_result_ok roomId _ env, ?_⟩
  rw [countClose_append, leave_trace_closeCount, leave_trace_closeCount, h,
      leave_state_pc]
  simp

/-- Witness for C4: leaving twice from a published state with a failing
backend closes the connection exactly once and neither call throws. -/
theorem leave_twice_closes_once_witness :
    countClose ((leave "room-1" publishedState failLeaveEnv).trace ++
        (leave "room-1" (leave "room-1" publishedState failLeaveEnv).state
          failLeaveEnv).trace) = 1 :=
  (leave_twice_closes_once "room-1" publishedState failLeaveEnv PC.new rfl).2.2

/-- C3 counterexample: with a failing backend leave notification, `leave`
does not throw and clears the refs, but the session-state reset to Idle is
skipped — `sessionId` and the remote-stream map keep their prior values,
contradicting the claim that the reset still completes. -/
theorem leave_reset_skipped_on_backend_failure :
    (leave "room-1" publishedState failLeaveEnv).result = .ok () ∧
    (leave "room-1" publishedState failLeaveEnv).state.state.sessionId = some "s1" ∧
    (leave "room-1" publishedState failLeaveEnv).state.state.remoteStreams =
      [("stream-1", sampleStream)] := by
  refine ⟨leave_result_ok "room-1" publishedState failLeaveEnv, ?_, ?_⟩ <;>
    simp [leave, failLeaveEnv, publishedState, joinedState, initState, baseEnv]

/-- C3 amended: `leave` never throws and always stops the local stream,
closes and discards the connection and clears the ICE-server ref; the
React-state reset to Idle with an empty remote-stream map happens only
when the backend leave call succeeds — on backend failure the failure is
logged and the session state keeps its prior values. -/
theorem leave_teardown (roomId : String) (st : HookState) (env1 env2 : Env)
    (e : String) (h1 : env1.leaveResp = .error e) (h2 : env2.leaveResp = .ok ()) :
    ((leave roomId st env1).result = .ok () ∧
     (leave roomId st env1).state.pc = none ∧
     (leave roomId st env1).state.localStreamRef = none ∧
     (leave roomId st env1).state.iceServersRef = [] ∧
     (leave roomId st env1).state.state = st.state) ∧
    ((leave roomId st env2).result = .ok () ∧
     (leave roomId st env2).state.pc = none ∧
     (leave roomId st env2).state.localStreamRef = none ∧
     (leave roomId st env2).state.iceServersRef = [] ∧
     (leave roomId st env2).state.state = RoomState.empty) := by
  constructor
  · simp [leave, h1]
  · simp [leave, h2]

/-- Witness for C3's amended claim: the failing backend leaves the session
state untouched, the successful one resets it. -/
theorem leave_teardown_witness :
    (leave "room-1" publishedState failLeaveEnv).state.state = publishedState.state ∧
    (leave "room-1" publishedState baseEnv).state.state = RoomState.empty :=
  ⟨(leave_teardown "room-1" publishedState failLeaveEnv baseEnv "network down"
      rfl rfl).1.2.2.2.2,
   (leave_teardown "room-1" publishedState failLeaveEnv baseEnv "network down"
      rfl rfl).2.2.2.2.2⟩

/-- C2 counterexample: with a backend publish response lacking an answer
SDP, the round settles successfully — no `NoAnswer` error is raised to the
caller, contradicting the claim that the operation raises `NoAnswer`. -/
theorem publish_no_answer_not_raised :
    (publishTracks "room-1" joinedState noAnswerEnv).result = .ok noAnswerPublish ∧
    (publishTracks "room-1" joinedState noAnswerEnv).result ≠
      .error JsError.noAnswer := by
  constructor <;> decide

/-- C2 amended: a first publish round whose response lacks an answer SDP
logs a warning and completes normally: the call returns the response
instead of raising (in particular it never raises `NoAnswer`), `close` is
never invoked and the connection stays open, and the session identity
(`sessionId`, `iceServers`) is unchanged. -/
theorem publish_no_answer_completes (roomId : String) (st : HookState)
    (env : Env) (stream : Stream) (res : PublishResponse)
    (hp : st.pc = none) (hg : env.gum = .ok stream)
    (hr : env.publishResp = .ok res) (ha : res.answer_sdp = none)
    (hn : res.requires_immediate_renegotiation = false) :
    (publishTracks roomId st env).result = .ok res ∧
    countClose (publishTracks roomId st env).trace = 0 ∧
    ((publishTracks roomId st env).state.pc.map PC.closed) = some false ∧
    (publishTracks roomId st env).state.state.sessionId = st.state.sessionId ∧
    (publishTracks roomId st env).state.state.iceServers = st.state.iceServers ∧
    List.IsSuffix ["WARNING: No answer SDP from publish!"]
      (publishTracks roomId st env).state.logs := by
  refine ⟨?_, ?_, ?_, ?_, ?_, ?_⟩ <;>
    simp [publishTracks, publishPhase1, publishPhase2, createPC, hp, hg, hr, ha,
          hn, countClose_cons, countClose, isClose, addLocalTracks_closed,
          PC.setLocalDescription, PC.new, pushLog_suffix]

/-- Witness for C2's amended claim: the no-answer publish closes nothing
and leaves the connection open. -/
theorem publish_no_answer_completes_witness :
    countClose (publishTracks "room-1" joinedState noAnswerEnv).trace = 0 ∧
    ((publishTracks "room-1" joinedState noAnswerEnv).state.pc.map PC.closed) =
      some false :=
  ⟨(publish_no_answer_completes "room-1" joinedState noAnswerEnv sampleStream
      noAnswerPublish rfl rfl rfl rfl rfl).2.1,
   (publish_no_answer_completes "room-1" joinedState noAnswerEnv sampleStream
      noAnswerPublish rfl rfl rfl rfl rfl).2.2.1⟩

/-- No branch of `subscribeTo` ever constructs a peer connection. -/
theorem subscribeTo_no_create (roomId remoteId : String) (names : List String)
    (st : HookState) (env : Env) :
    countCreate (subscribeTo roomId remoteId names st env).trace = 0 := by
  rcases hp : st.pc with _ | pc
  · simp [subscribeTo, hp, countCreate]
  · rcases hs : env.subscribeResp with e | ⟨asdp, atype, tks, renego⟩
    · simp [subscribeTo, hp, hs, countCreate, isCreate]
    · cases renego with
      | false =>
        cases asdp <;> simp [subscribeTo, hp, hs, countCreate, isCreate]
      | true =>
        rcases hr : env.renegResp with e2 | ⟨rsdp, rtype⟩
        · cases asdp <;> simp [subscribeTo, hp, hs, hr, countCreate, isCreate]
        · cases asdp <;> cases rsdp <;>
            simp [subscribeTo, hp, hs, hr, countCreate, isCreate]

/-- C8: `subscribeTo` with no live connection fails with the
"No PeerConnection — publish first" error, creates no connection and
leaves the whole session state (React state and refs) unchanged; and with
a live connection it reuses it — no branch ever constructs a second
connection. -/
theorem subscribe_requires_existing_connection (roomId remoteId : String)
    (names : List String) (st1 st2 : HookState) (env : Env) (pc : PC)
    (h1 : st1.pc = none) (_h2 : st2.pc = some pc) :
    ((subscribeTo roomId remoteId names st1 env).result =
        .error JsError.noPeerConnection ∧
     (subscribeTo roomId remoteId names st1 env).state.state = st1.state ∧
     (subscribeTo roomId remoteId names st1 env).state.pc = none ∧
     (subscribeTo roomId remoteId names st1 env).state.iceServersRef =
        st1.iceServersRef ∧
     (subscribeTo roomId remoteId names st1 env).state.localStreamRef =
        st1.localStreamRef ∧
     countCreate (subscribeTo roomId remoteId names st1 env).trace = 0) ∧
    countCreate (subscribeTo roomId remoteId names st2 env).trace = 0 := by
  refine ⟨⟨?_, ?_, ?_, ?_, ?_, subscribeTo_no_create roomId remoteId names st1 env⟩,
          subscribeTo_no_create roomId remoteId names st2 env⟩ <;>
    simp [subscribeTo, h1]

/-- Witness for C8: subscribing before any publish fails with the
no-connection error; subscribing on a published session creates no second
connection. -/
theorem subscribe_requires_existing_connection_witness :
    (subscribeTo "room-1" "s2" ["video-1"] initState baseEnv).result =
      .error JsError.noPeerConnection ∧
    countCreate (subscribeTo "room-1" "s2" ["video-1"] publishedState baseEnv).trace
      = 0 :=
  ⟨(subscribe_requires_existing_connection "room-1" "s2" ["video-1"] initState
      publishedState baseEnv PC.new rfl rfl).1.1,
   (subscribe_requires_existing_connection "room-1" "s2" ["video-1"] initState
      publishedState baseEnv PC.new rfl rfl).2⟩

/-- C6: a SubscribeTo whose response carries no answer SDP does not throw
and does not close the connection: the call returns the response with its
per-track errorCode/errorDescription pairs, logs the warning followed by
one entry per errored track, and the previously-bound transceivers are
left untouched. -/
theorem subscribe_no_answer_not_fatal (roomId remoteId : String)
    (names : List String) (st : HookState) (env : Env) (pc : PC)
    (res : SubscribeResponse)
    (h : st.pc = some pc) (hr : env.subscribeResp = .ok res)
    (ha : res.answer_sdp = none) (hn : res.requires_immediate_renegotiation = false)
    (hmid : ∀ t ∈ pc.transceivers, t.mid.isSome)
    (hlen : (res.tracks.getD []).length ≤ 99) :
    (subscribeTo roomId remoteId names st env).result = .ok res ∧
    countClose (subscribeTo roomId remoteId names st env).trace = 0 ∧
    ((subscribeTo roomId remoteId names st env).state.pc.map PC.closed) =
      some pc.closed ∧
    ((subscribeTo roomId remoteId names st env).state.pc.map
        (fun p => p.transceivers.take pc.transceivers.length)) =
      some pc.transceivers ∧
    (["WARNING: No answer SDP in subscribe response!"] ++
        trackErrorMsgs (res.tracks.getD [])) <:+
      (subscribeTo roomId remoteId names st env).state.logs := by
  refine ⟨?_, ?_, ?_, ?_, ?_⟩
  · simp [subscribeTo, h, hr, ha, hn]
  · simp [subscribeTo, h, hr, ha, hn, countClose, isClose]
  · simp [subscribeTo, h, hr, ha, hn, PC.setLocalDescription, addRecvSlots_closed]
  · simp [subscribeTo, h, hr, ha, hn, PC.setLocalDescription,
          addRecvSlots_transceivers, assignMids, assignMidsFrom_append,
          assignMidsFrom_of_all_some 0 _ hmid, List.take_left]
  · simp only [subscribeTo, h, hr, ha, hn, foldl_trackError_eq,
               Bool.false_eq_true, if_false]
    refine foldl_pushLog_suffix _ _ _ (pushLog_suffix _ _) ?_
    have hle := List.length_filterMap_le
      (fun t => if jsTruthy t.errorCode then some (trackErrorMsg t) else none)
      (res.tracks.getD [])
    simp only [trackErrorMsgs, List.length_singleton]
    omega

/-- Witness for C6: the spec's example — `tracks:
[{trackName: "audio-0", errorCode: "NOT_FOUND"}]` with no answer SDP —
settles successfully and records the per-track error in the log. -/
theorem subscribe_no_answer_not_fatal_witness :
    (subscribeTo "room-1" "s2" ["audio-0"] publishedState noAnswerSubEnv).result =
      .ok noAnswerSubscribe ∧
    (["WARNING: No answer SDP in subscribe response!"] ++
        trackErrorMsgs (noAnswerSubscribe.tracks.getD [])) <:+
      (subscribeTo "room-1" "s2" ["audio-0"] publishedState noAnswerSubEnv).state.logs :=
  ⟨(subscribe_no_answer_not_fatal "room-1" "s2" ["audio-0"] publishedState
      noAnswerSubEnv PC.new noAnswerSubscribe rfl rfl rfl rfl (by decide)
      (by decide)).1,
   (subscribe_no_answer_not_fatal "room-1" "s2" ["audio-0"] publishedState
      noAnswerSubEnv PC.new noAnswerSubscribe rfl rfl rfl rfl (by decide)
      (by decide)).2.2.2.2⟩

/-- C5: in a publish round the fresh connection's transceivers all have
unassigned mids before the offer is committed as the local description;
the bindings sent to `api.publish` are computed from the post-commit
transceivers, and every binding's trackName is the concatenation
`{kind}-{mid}` of the sender track's kind with the post-commit mid. -/
theorem publish_mids_read_after_commit (roomId : String) (st : HookState)
    (env : Env) (stream : Stream)
    (hg : env.gum = .ok stream)
    (hk : ∀ tr ∈ stream.tracks, tr.kind ≠ "") :
    (∀ t ∈ (addLocalTracks PC.new stream).transceivers, t.mid = none) ∧
    publishedInfos (publishTracks roomId st env).trace =
      [((addLocalTracks PC.new stream).setLocalDescription
          (addLocalTracks PC.new stream).createOffer).transceivers.map mkTrackInfo] ∧
    (∀ t ∈ ((addLocalTracks PC.new stream).setLocalDescription
          (addLocalTracks PC.new stream).createOffer).transceivers,
       ∃ k m, t.senderTrackKind = some k ∧ t.mid = some m ∧
         (mkTrackInfo t).trackName = k ++ "-" ++ m ∧ (mkTrackInfo t).mid = m) := by
  refine ⟨?_, ?_, ?_⟩
  · intro t ht
    rw [addLocalTracks_transceivers] at ht
    simp [PC.new] at ht
    obtain ⟨tr, htr, rfl⟩ := ht
    rfl
  · rcases hp : st.pc with _ | pc0 <;>
      (simp [publishTracks, publishPhase1, createPC, hg, hp, publishedInfos]
       intro a ha
       obtain ⟨s2, rfl⟩ := publishPhase2_trace_renego_only _ _ _ _ _ a ha
       rfl)
  · intro t ht
    simp only [PC.setLocalDescription, assignMids] at ht
    obtain ⟨t3, ht3, hsk, hsm⟩ := assignMidsFrom_mem 0 _ t ht
    rw [addLocalTracks_transceivers] at ht3
    simp [PC.new] at ht3
    obtain ⟨tr, htr, rfl⟩ := ht3
    obtain ⟨m, hm⟩ := Option.isSome_iff_exists.mp hsm
    refine ⟨tr.kind, m, hsk, hm, ?_, ?_⟩
    · simp [mkTrackInfo, hsk, hm, jsOr, jsNull, hk tr htr]
    · simp [mkTrackInfo, hm, jsOr_some_empty_default]

/-- Witness for C5: publishing the sample audio+video stream sends
bindings named from the post-commit mids — `audio-0` and `video-1`. -/
theorem publish_mids_read_after_commit_witness :
    publishedInfos (publishTracks "room-1" joinedState baseEnv).trace =
      [[TrackInfo.mk "audio-0" "0" "audio", TrackInfo.mk "video-1" "1" "video"]] := by
  rw [(publish_mids_read_after_commit "room-1" joinedState baseEnv sampleStream rfl
        (by decide)).2.1]
  decide

theorem join_not_busy (roomId : String) (st : HookState) (env : Env) :
    (join roomId st env).result ≠ .error JsError.negotiationBusy := by
  rcases h : env.joinResp with e | res <;> simp [join, h]

theorem publishPhase2_not_busy (roomId : String) (stream : Stream) (pc : PC)
    (st : HookState) (env : Env) :
    (publishPhase2 roomId stream pc st env).result ≠
      .error JsError.negotiationBusy := by
  rcases h : env.publishResp with e | ⟨asdp, atype, tks, renego⟩
  · simp [publishPhase2, h]
  · cases renego with
    | false => cases asdp <;> simp [publishPhase2, h]
    | true =>
      rcases hr : env.renegResp with e2 | ⟨rsdp, rtype⟩
      · cases asdp <;> simp [publishPhase2, h, hr]
      · cases asdp <;> cases rsdp <;> simp [publishPhase2, h, hr]

theorem publishTracks_not_busy (roomId : String) (st : HookState) (env : Env) :
    (publishTracks roomId st env).result ≠ .error JsError.negotiationBusy := by
  rcases hg : env.gum with e | stream
  · simp [publishTracks, publishPhase1, hg]
  · rcases hp : st.pc with _ | pc0 <;>
      simp [publishTracks, publishPhase1, createPC, hg, hp, publishPhase2_not_busy]

theorem subscribeTo_not_busy (roomId remoteId : String) (names : List String)
    (st : HookState) (env : Env) :
    (subscribeTo roomId remoteId names st env).result ≠
      .error JsError.negotiationBusy := by
  rcases hp : st.pc with _ | pc
  · simp [subscribeTo, hp]
  · rcases hs : env.subscribeResp with e | ⟨asdp, atype, tks, renego⟩
    · simp [subscribeTo, hp, hs]
    · cases renego with
      | false => cases asdp <;> simp [subscribeTo, hp, hs]
      | true =>
        rcases hr : env.renegResp with e2 | ⟨rsdp, rtype⟩
        · cases asdp <;> simp [subscribeTo, hp, hs, hr]
        · cases asdp <;> cases rsdp <;> simp [subscribeTo, hp, hs, hr]

/-- C1 counterexample: at the instant the first publish round suspends on
`api.publish` (offer committed, answer not yet applied — `pendingRound`
holds), a `subscribeTo` invoked on the same session is not rejected with
`NegotiationBusy`: it runs to completion concurrently and settles
successfully, contradicting the fail-fast claim. -/
theorem concurrent_subscribe_not_rejected :
    pendingRound midPublishState = true ∧
    (publishPhase1 "room-1" joinedState baseEnv).result.toOption.isSome = true ∧
    (subscribeTo "room-1" "s2" ["video-1"] midPublishState baseEnv).result =
      .ok okSubscribe := by
  refine ⟨?_, ?_, ?_⟩ <;> decide

/-- C1 amended: the hook has no round-serialization guard at all: no
operation ever fails with a `NegotiationBusy` condition, for any state —
including states in which a prior round's promise is unsettled — so a
second operation proceeds concurrently instead of failing fast. -/
theorem no_negotiation_busy (roomId remoteId : String) (names : List String)
    (st : HookState) (env : Env) :
    (join roomId st env).result ≠ .error JsError.negotiationBusy ∧
    (publishTracks roomId st env).result ≠ .error JsError.negotiationBusy ∧
    (subscribeTo roomId remoteId names st env).result ≠
      .error JsError.negotiationBusy ∧
    (leave roomId st env).result = .ok () :=
  ⟨join_not_busy roomId st env, publishTracks_not_busy roomId st env,
   subscribeTo_not_busy roomId remoteId names st env, leave_result_ok roomId st env⟩

end WebRTC
